import Mathlib

/-!
Verification of the decision-pipeline core of the prod_tellsee repository.

The Python sources are shallowly embedded as executable Lean definitions:
raw text is a list of characters, timestamps are integer seconds, Python
float arithmetic in the spiral detector is modeled with exact rationals,
and the external collaborators (LLM analyst, LLM advisor, the Redis cache
and the Supabase memory store) are parameters of the pipeline model.
-/

/-! ## Character helpers (ASCII fragment of the Python string operations) -/

/-- Whitespace characters recognized by the Python str.strip, str.split and
the regex class backslash-s (space, tab, newline, carriage return, vertical
tab, form feed). -/
def isPySpace (c : Char) : Bool :=
  c == ' ' || c == '\t' || c == '\n' || c == '\r' || c == '\x0b' || c == '\x0c'

/-- ASCII lower-casing, modeling str.lower on the ASCII fragment. -/
def pyLower (c : Char) : Char :=
  if 'A' ≤ c ∧ c ≤ 'Z' then Char.ofNat (c.toNat + 32) else c

/-- Lower-case a whole text. -/
def lowerCl (l : List Char) : List Char := l.map pyLower

def isAsciiDigit (c : Char) : Bool := '0' ≤ c && c ≤ '9'

def isLowerAlpha (c : Char) : Bool := 'a' ≤ c && c ≤ 'z'

def isAsciiAlpha (c : Char) : Bool := isLowerAlpha c || ('A' ≤ c && c ≤ 'Z')

/-- Regex word character, the class matched by backslash-w (ASCII fragment). -/
def isWordChar (c : Char) : Bool := isAsciiAlpha c || isAsciiDigit c || c == '_'

/-- str.strip: drop leading and trailing whitespace. -/
def pyStrip (l : List Char) : List Char :=
  ((l.dropWhile isPySpace).reverse.dropWhile isPySpace).reverse

/-- Does some suffix of the list satisfy the predicate?  This models the
scan performed by re.search: a pattern matches the text iff it matches at
some starting position. -/
def anySuffix (p : List Char → Bool) : List Char → Bool
  | [] => p []
  | c :: rest => p (c :: rest) || anySuffix p rest

/-- Substring containment (the Python operator in, and re.search for a
pattern without metacharacters). -/
def containsSub (needle hay : List Char) : Bool :=
  anySuffix (fun l => needle.isPrefixOf l) hay

/-- String-level substring containment. -/
def strContains (needle hay : String) : Bool := containsSub needle.toList hay.toList

/-- After at least the one whitespace character already consumed, skip
further whitespace and try the alternatives.  Together with afterWsPlus
this models the regex fragment backslash-s-plus followed by an
alternation whose branches start with non-whitespace characters. -/
def wsStarThen (alts : List (List Char)) : List Char → Bool
  | [] => alts.any (fun a => a.isPrefixOf ([] : List Char))
  | c :: rest =>
      alts.any (fun a => a.isPrefixOf (c :: rest)) || (isPySpace c && wsStarThen alts rest)

/-- One or more whitespace characters, then one of the alternatives. -/
def afterWsPlus (alts : List (List Char)) : List Char → Bool
  | [] => false
  | c :: rest => isPySpace c && wsStarThen alts rest

/-! ## Guardrail data model (src/controller/guardrails.py) -/

/-- GuardrailViolation from guardrails.py.  The timestamp string (wall
clock at construction) and the context dictionary are reporting metadata
and are not modeled. -/
structure GuardrailViolation where
  violation_type : String
  severity : String
  message : String
deriving DecidableEq, Repr

/-- GuardrailResult: passed flag, violations, non-blocking warnings.
add_violation always sets passed to false, so a result is built here as a
literal with passed tied to its violations. -/
structure GuardrailResult where
  passed : Bool
  violations : List GuardrailViolation
  warnings : List String
deriving DecidableEq, Repr

/-! ### InputGuardrails (guardrails.py lines 63-161) -/

/-- The regex steal backslash-s-plus (data|information|secrets) from
SENSITIVE_PATTERNS, searched anywhere in the lower-cased text. -/
def stealPatternHit (tl : List Char) : Bool :=
  anySuffix
    (fun l =>
      "steal".toList.isPrefixOf l &&
      afterWsPlus ["data".toList, "information".toList, "secrets".toList] (l.drop 5))
    tl

/-- Does the lower-cased text match one of the seven SENSITIVE_PATTERNS?
The two other patterns with metacharacters, hack backslash-s-plus
competitor and illegal backslash-s-plus activity, are modeled the same
way as the steal pattern; the rest are plain substrings. -/
def sensitiveHit (tl : List Char) : Bool :=
  anySuffix (fun l => "hack".toList.isPrefixOf l && afterWsPlus ["competitor".toList] (l.drop 4)) tl ||
  containsSub "ddos".toList tl ||
  containsSub "sabotage".toList tl ||
  anySuffix (fun l => "illegal".toList.isPrefixOf l && afterWsPlus ["activity".toList] (l.drop 7)) tl ||
  stealPatternHit tl ||
  containsSub "bribe".toList tl ||
  containsSub "blackmail".toList tl

/-- Boundary condition of the regex token backslash-b before a word
character, given the character preceding the match position. -/
def boundaryBefore (prev : Option Char) : Bool :=
  match prev with
  | none => true
  | some c => !isWordChar c

/-- Boundary condition of backslash-b after a word character. -/
def boundaryAfter : List Char → Bool
  | [] => true
  | c :: _ => !isWordChar c

/-- Does the predicate hold at some position of the text?  The predicate
receives the preceding character (for word boundaries) and the remaining
text from that position on. -/
def anyPosWithPrev (p : Option Char → List Char → Bool) : Option Char → List Char → Bool
  | prev, [] => p prev []
  | prev, c :: rest => p prev (c :: rest) || anyPosWithPrev p (some c) rest

/-- The SSN-shaped PII pattern: three digits, dash, two digits, dash, four
digits, between word boundaries. -/
def ssnAt (prev : Option Char) : List Char → Bool
  | a :: b :: c :: d :: e :: f :: g :: h :: i :: j :: k :: rest =>
      boundaryBefore prev && isAsciiDigit a && isAsciiDigit b && isAsciiDigit c &&
      d == '-' && isAsciiDigit e && isAsciiDigit f && g == '-' &&
      isAsciiDigit h && isAsciiDigit i && isAsciiDigit j && isAsciiDigit k &&
      boundaryAfter rest
  | _ => false

/-- Consume exactly n digits, returning the rest of the text. -/
def consumeDigits : Nat → List Char → Option (List Char)
  | 0, l => some l
  | _ + 1, [] => none
  | n + 1, c :: rest => if isAsciiDigit c then consumeDigits n rest else none

/-- The card-number-shaped PII pattern: sixteen digits between word
boundaries. -/
def cardAt (prev : Option Char) (l : List Char) : Bool :=
  boundaryBefore prev &&
  (match consumeDigits 16 l with
   | some rest => boundaryAfter rest
   | none => false)

/-- Character class of the local part of the email PII pattern. -/
def isEmailA (c : Char) : Bool :=
  isAsciiAlpha c || isAsciiDigit c || c == '.' || c == '_' || c == '%' || c == '+' || c == '-'

/-- Character class of the domain part of the email PII pattern. -/
def isEmailB (c : Char) : Bool := isAsciiAlpha c || isAsciiDigit c || c == '.' || c == '-'

def twoAlpha : List Char → Bool
  | a :: b :: _ => isAsciiAlpha a && isAsciiAlpha b
  | _ => false

/-- After the at-sign and one domain character: more domain characters,
then a literal dot followed by at least two letters. -/
def emailTail : List Char → Bool
  | [] => false
  | c :: rest => (c == '.' && twoAlpha rest) || (isEmailB c && emailTail rest)

/-- The email-shaped PII pattern searched anywhere in the text. -/
def emailHit (text : List Char) : Bool :=
  anySuffix
    (fun l =>
      match l with
      | a :: b :: rest =>
          isEmailA a && b == '@' &&
          (match rest with
           | c :: r2 => isEmailB c && emailTail r2
           | [] => false)
      | _ => false)
    text

def ssnHit (text : List Char) : Bool := anyPosWithPrev ssnAt none text

def cardHit (text : List Char) : Bool := anyPosWithPrev cardAt none text

/-- The PII warning text added once per matching PII pattern. -/
def piiWarningText : String :=
  "Input may contain personally identifiable information (PII). Consider removing sensitive data."

/-- The warnings produced by the PII loop of InputGuardrails.validate, in
pattern order (SSN, card number, email). -/
def pii_warnings (raw : List Char) : List String :=
  (if ssnHit raw then [piiWarningText] else []) ++
  (if cardHit raw then [piiWarningText] else []) ++
  (if emailHit raw then [piiWarningText] else [])

/-- str.split with no argument: split on whitespace runs, no empty words.
The accumulator carries the current word reversed. -/
def pySplitAux : List Char → List Char → List (List Char)
  | [], acc => if acc = [] then [] else [acc.reverse]
  | c :: rest, acc =>
      if isPySpace c then
        (if acc = [] then pySplitAux rest [] else acc.reverse :: pySplitAux rest [])
      else pySplitAux rest (c :: acc)

def pySplit (l : List Char) : List (List Char) := pySplitAux l []

/-- A run of twenty or more lower-case letters in the lower-cased text
(the keyboard-smashing regex). -/
def lowerRun20 (text : List Char) : Bool :=
  anySuffix (fun l => (l.take 20).length == 20 && (l.take 20).all isLowerAlpha) text

/-- InputGuardrails._is_spam: unique-word ratio below 0.3 among inputs of
more than five words, or a twenty-character run of letters.  The float
comparison unique/len < 0.3 is the exact integer comparison
10*unique < 3*len. -/
def is_spam (text : List Char) : Bool :=
  (decide ((pySplit text).length > 5) &&
   decide (10 * (pySplit text).dedup.length < 3 * (pySplit text).length)) ||
  lowerRun20 (lowerCl text)

namespace InputGuardrails

/-- InputGuardrails.validate (guardrails.py lines 90-144): length gate,
harmful-content gate (each returning immediately on violation), PII
warnings, spam gate.  min_length = 10, max_length = 3000. -/
def validate (raw : List Char) : GuardrailResult :=
  if raw = [] ∨ (pyStrip raw).length < 10 then
    ⟨false, [⟨"input_too_short", "medium", "Input must be at least 10 characters"⟩], []⟩
  else if 3000 < raw.length then
    ⟨false, [⟨"input_too_long", "medium", "Input exceeds 3000 character limit"⟩], []⟩
  else if sensitiveHit (lowerCl raw) = true then
    ⟨false, [⟨"harmful_intent_detected", "critical",
              "Input contains potentially harmful or unethical intent"⟩], []⟩
  else if is_spam raw = true then
    ⟨false, [⟨"spam_detected", "low", "Input appears to be spam or gibberish"⟩],
     pii_warnings raw⟩
  else
    ⟨true, [], pii_warnings raw⟩

end InputGuardrails

/-! ### CompetitorDataGuardrail (guardrails.py lines 350-381) -/

def FORBIDDEN_SOURCES : List String :=
  ["leaked", "hacked", "stolen", "confidential", "internal document", "employee said"]

/-- CompetitorDataGuardrail.validate_data_source: first forbidden-source
substring of the lower-cased text yields a critical violation. -/
def validate_data_source (raw : List Char) : GuardrailResult :=
  match FORBIDDEN_SOURCES.find? (fun s => containsSub s.toList (lowerCl raw)) with
  | some s =>
      ⟨false, [⟨"unethical_data_source", "critical",
                "Competitor data may be from unethical source: " ++ s⟩], []⟩
  | none => ⟨true, [], []⟩

/-! ### RateLimitGuardrail (guardrails.py lines 239-311)

Timestamps are integer seconds; datetime.utcnow() is the explicit now
argument, and the per-identity entry of the request_history dictionary is
the explicit history argument (the dictionary lookup and store are the
threading of this list through the pipeline). -/

/-- The pruning of the stored history to the trailing day performed at
the top of every check (keep entries with now - ts < one day). -/
def prune24 (now : Int) (history : List Int) : List Int :=
  history.filter (fun ts => decide (now - ts < 86400))

/-- RateLimitGuardrail.check_rate_limit for one business identity: prune
the history to the trailing day, count the trailing minute, hour and day,
report the first exceeded limit (10, 100, 500) with high severity, and
append the current timestamp iff the check passed. -/
def check_rate_limit (now : Int) (history : List Int) : GuardrailResult × List Int :=
  if ((prune24 now history).filter (fun ts => decide (now - 60 < ts))).length > 10 then
    (⟨false, [⟨"rate_limit_exceeded", "high", "Exceeded 10 requests per minute"⟩], []⟩,
     prune24 now history)
  else if ((prune24 now history).filter (fun ts => decide (now - 3600 < ts))).length > 100 then
    (⟨false, [⟨"rate_limit_exceeded", "high", "Exceeded 100 requests per hour"⟩], []⟩,
     prune24 now history)
  else if ((prune24 now history).filter (fun ts => decide (now - 86400 < ts))).length > 500 then
    (⟨false, [⟨"rate_limit_exceeded", "high", "Exceeded 500 requests per day"⟩], []⟩,
     prune24 now history)
  else
    (⟨true, [], []⟩, prune24 now history ++ [now])

/-- Run a sequence of check_rate_limit calls at the given times, starting
from the given history, collecting the results. -/
def run_rate_calls : List Int → List Int → List GuardrailResult × List Int
  | [], h => ([], h)
  | t :: ts, h =>
      let step := check_rate_limit t h
      let rest := run_rate_calls ts step.2
      (step.1 :: rest.1, rest.2)

/-! ### BusinessContextGuardrail (guardrails.py lines 314-347) -/

/-- BusinessContextGuardrail.validate_business_access: only the emptiness
of the business id is checked (the Supabase entitlement check is a TODO in
the source).  The user id argument is unused by the source as well. -/
def validate_business_access (business_id : String) : GuardrailResult :=
  if business_id = "" then
    ⟨false, [⟨"invalid_business", "critical", "Business ID is required"⟩], []⟩
  else ⟨true, [], []⟩

/-! ### GuardrailOrchestrator (guardrails.py lines 384-433) -/

/-- Python truthiness of an optional string (None and the empty string are
falsy). -/
def id_truthy : Option String → Bool
  | none => false
  | some s => !(s == "")

/-- Merge of sub-results in GuardrailOrchestrator.validate_input: overall
passed is the conjunction, violations of failing checks are concatenated
in check order, warnings of all checks are concatenated. -/
def aggregate (checks : List GuardrailResult) : GuardrailResult :=
  { passed := checks.all (fun c => c.passed),
    violations := ((checks.filter (fun c => !c.passed)).map (fun c => c.violations)).flatten,
    warnings := (checks.map (fun c => c.warnings)).flatten }

/-- GuardrailOrchestrator.validate_input: content gate and provenance gate
always run; rate limiting and business access only when a business id is
supplied (truthy).  Returns the merged result and the updated rate-limit
history for the identity. -/
def validate_input_all (raw : List Char) (business_id : Option String)
    (now : Int) (hist : List Int) : GuardrailResult × List Int :=
  let c1 := InputGuardrails.validate raw
  let c2 := validate_data_source raw
  if id_truthy business_id then
    let step := check_rate_limit now hist
    let c4 := validate_business_access (business_id.getD "")
    (aggregate [c1, c2, step.1, c4], step.2)
  else
    (aggregate [c1, c2], hist)

/-! ## Strategy engine (src/strategy_engine) -/

inductive EventType
  | NEW_PRODUCT_LAUNCH | PRICE_CHANGE | NONE
deriving DecidableEq, Repr

inductive Sentiment
  | POSITIVE | MIXED_POSITIVE | NEUTRAL | NEGATIVE | UNKNOWN
deriving DecidableEq, Repr

inductive Clarity
  | CLEAR | CONFUSING | UNKNOWN
deriving DecidableEq, Repr

inductive PriceInfo
  | LOWER | HIGHER | SAME | UNKNOWN
deriving DecidableEq, Repr

inductive ExecutionQuality
  | STRONG | AVERAGE | WEAK | UNKNOWN
deriving DecidableEq, Repr

inductive MessagingStrength
  | CLEAR | GENERIC | CONFUSING | UNKNOWN
deriving DecidableEq, Repr

inductive MarketConfusion
  | HIGH | MEDIUM | LOW | UNKNOWN
deriving DecidableEq, Repr

inductive StrategyType
  | POSITIONING | PRICING | WAIT
deriving DecidableEq, Repr

inductive Urgency
  | LOW | MEDIUM | HIGH
deriving DecidableEq, Repr

/-- The string value of the enum member (enums.py). -/
def EventType.val : EventType → String
  | .NEW_PRODUCT_LAUNCH => "new_product_launch"
  | .PRICE_CHANGE => "price_change"
  | .NONE => "none"

def Sentiment.val : Sentiment → String
  | .POSITIVE => "positive"
  | .MIXED_POSITIVE => "mixed_positive"
  | .NEUTRAL => "neutral"
  | .NEGATIVE => "negative"
  | .UNKNOWN => "unknown"

def Clarity.val : Clarity → String
  | .CLEAR => "clear"
  | .CONFUSING => "confusing"
  | .UNKNOWN => "unknown"

def PriceInfo.val : PriceInfo → String
  | .LOWER => "lower"
  | .HIGHER => "higher"
  | .SAME => "same"
  | .UNKNOWN => "unknown"

def ExecutionQuality.val : ExecutionQuality → String
  | .STRONG => "strong"
  | .AVERAGE => "average"
  | .WEAK => "weak"
  | .UNKNOWN => "unknown"

def MessagingStrength.val : MessagingStrength → String
  | .CLEAR => "clear"
  | .GENERIC => "generic"
  | .CONFUSING => "confusing"
  | .UNKNOWN => "unknown"

def MarketConfusion.val : MarketConfusion → String
  | .HIGH => "high"
  | .MEDIUM => "medium"
  | .LOW => "low"
  | .UNKNOWN => "unknown"

def StrategyType.val : StrategyType → String
  | .POSITIONING => "positioning_response"
  | .PRICING => "pricing_response"
  | .WAIT => "wait_and_observe"

def Urgency.val : Urgency → String
  | .LOW => "low"
  | .MEDIUM => "medium"
  | .HIGH => "high"

/-- CompetitorSignals (models.py): the seven classified signal fields. -/
structure CompetitorSignals where
  event : EventType
  sentiment : Sentiment
  clarity : Clarity
  price_info : PriceInfo
  execution_quality : ExecutionQuality
  messaging_strength : MessagingStrength
  market_confusion : MarketConfusion
deriving DecidableEq, Repr

structure Competitor where
  name : String
  signals : CompetitorSignals
deriving DecidableEq, Repr

structure ExtractedContext where
  competitors : List Competitor
  market_signals : List String
  user_intent : String
deriving DecidableEq, Repr

structure StrategyDecision where
  strategy_type : StrategyType
  focus : String
  urgency : Urgency
  avoid : List String
deriving DecidableEq, Repr

/-- Rule 1 in rules.py: positioning response.  Matches a confusing launch
with positive buzz, or weak execution with generic messaging amid high
confusion. -/
def evaluate_positioning_rule (context : ExtractedContext) : Option StrategyDecision :=
  match context.competitors with
  | [] => none
  | competitor :: _ =>
      let s := competitor.signals
      if s.event = .NEW_PRODUCT_LAUNCH ∧
         (s.sentiment = .POSITIVE ∨ s.sentiment = .MIXED_POSITIVE) ∧
         s.clarity = .CONFUSING then
        some ⟨.POSITIONING, "clarity_and_simplicity", .MEDIUM, ["price_war", "feature_matching"]⟩
      else if s.execution_quality = .WEAK ∧ s.messaging_strength = .GENERIC ∧
              s.market_confusion = .HIGH then
        some ⟨.POSITIONING, "differentiation_and_quality", .MEDIUM, ["price_war"]⟩
      else none

/-- Rule 2 in rules.py: pricing response to a lower competitor price, high
urgency when execution is strong. -/
def evaluate_pricing_rule (context : ExtractedContext) : Option StrategyDecision :=
  match context.competitors with
  | [] => none
  | competitor :: _ =>
      let s := competitor.signals
      if s.price_info = .LOWER then
        if s.execution_quality = .STRONG then
          some ⟨.PRICING, "value_not_discount", .HIGH, ["race_to_bottom", "panic_discounting"]⟩
        else
          some ⟨.PRICING, "value_not_discount", .MEDIUM, ["race_to_bottom"]⟩
      else none

/-- Rule 3 in rules.py: aggressive positioning against strong execution
with confusing messaging and high market confusion. -/
def evaluate_aggressive_positioning_rule (context : ExtractedContext) : Option StrategyDecision :=
  match context.competitors with
  | [] => none
  | competitor :: _ =>
      let s := competitor.signals
      if s.execution_quality = .STRONG ∧ s.messaging_strength = .CONFUSING ∧
         s.market_confusion = .HIGH then
        some ⟨.POSITIONING, "exploit_messaging_weakness", .HIGH, ["feature_matching", "wait"]⟩
      else none

/-- Rule 4 in rules.py: defensive wait when a launch meets negative
sentiment and high confusion. -/
def evaluate_defensive_wait_rule (context : ExtractedContext) : Option StrategyDecision :=
  match context.competitors with
  | [] => none
  | competitor :: _ =>
      let s := competitor.signals
      if s.event = .NEW_PRODUCT_LAUNCH ∧ s.sentiment = .NEGATIVE ∧
         s.market_confusion = .HIGH then
        some ⟨.WAIT, "let_competitor_fail_first", .LOW, ["early_reaction", "price_changes"]⟩
      else none

/-- Default rule in rules.py: wait and observe; always returns a
decision. -/
def evaluate_wait_rule (_context : ExtractedContext) : StrategyDecision :=
  ⟨.WAIT, "monitoring", .LOW, ["hasty_reactions"]⟩

/-- Rule 5 in rules.py: price increase opportunity. -/
def evaluate_price_increase_rule (context : ExtractedContext) : Option StrategyDecision :=
  match context.competitors with
  | [] => none
  | competitor :: _ =>
      let s := competitor.signals
      if s.price_info = .HIGHER then
        some ⟨.POSITIONING, "value_at_current_price", .MEDIUM, ["price_increases", "complacency"]⟩
      else none

/-- Rule 6 in rules.py: market leader defense. -/
def evaluate_market_leader_rule (context : ExtractedContext) : Option StrategyDecision :=
  match context.competitors with
  | [] => none
  | competitor :: _ =>
      let s := competitor.signals
      if s.execution_quality = .STRONG ∧ s.messaging_strength = .CLEAR ∧
         s.sentiment = .POSITIVE then
        some ⟨.POSITIONING, "defend_differentiation", .HIGH, ["ignore", "price_war"]⟩
      else none

/-- The priority-ordered rule list of engine.py. -/
def RULES : List (ExtractedContext → Option StrategyDecision) :=
  [evaluate_market_leader_rule,
   evaluate_aggressive_positioning_rule,
   evaluate_pricing_rule,
   evaluate_positioning_rule,
   evaluate_price_increase_rule,
   evaluate_defensive_wait_rule]

/-- First matching decision of the rule list.  The per-rule try/except of
engine.py (a raising rule counts as no match) has no counterpart here
since the embedded rules are total. -/
def firstRuleDecision : List (ExtractedContext → Option StrategyDecision) →
    ExtractedContext → Option StrategyDecision
  | [], _ => none
  | r :: rs, ctx =>
      match r ctx with
      | some d => some d
      | none => firstRuleDecision rs ctx

/-- decide_strategy (engine.py lines 32-69): first matching rule in
priority order, falling back to the wait rule.  The isinstance guard of
the source cannot fire for a well-typed context. -/
def decide_strategy (context : ExtractedContext) : StrategyDecision :=
  match firstRuleDecision RULES context with
  | some d => d
  | none => evaluate_wait_rule context

/-! ## Output guardrails (guardrails.py lines 164-236) -/

def FORBIDDEN_STRATEGIES : List String :=
  ["price_war", "race_to_bottom", "aggressive_undercutting", "feature_copying", "direct_attack"]

def aggressive_words : List String :=
  ["destroy", "crush", "annihilate", "attack", "dominate", "kill"]

/-- OutputGuardrails._is_aggressive_tone. -/
def is_aggressive_tone (text : String) : Bool :=
  aggressive_words.any (fun w => containsSub w.toList (lowerCl text.toList))

/-- The final response dictionary assembled by build_response
(controller/response_builder.py). -/
structure Response where
  best_move : String
  focus : String
  urgency : String
  avoid : List String
  advice : String
  reason : String
  confidence : String
deriving DecidableEq, Repr

/-- OutputGuardrails.validate_strategy: one high violation per forbidden
pattern contained in the lower-cased focus, a medium violation for a wait
strategy with high urgency, a warning for aggressive advice tone. -/
def validate_output (resp : Response) : GuardrailResult :=
  let focusLower := lowerCl resp.focus.toList
  let vio1 := (FORBIDDEN_STRATEGIES.filter (fun f => containsSub f.toList focusLower)).map
      (fun f => (⟨"forbidden_strategy", "high",
                  "Strategy focus contains forbidden pattern: " ++ f⟩ : GuardrailViolation))
  let vio2 :=
    if resp.best_move == "wait_and_observe" && resp.urgency == "high" then
      [(⟨"inconsistent_urgency", "medium",
         "Wait strategy should not have high urgency"⟩ : GuardrailViolation)]
    else []
  let warns :=
    if is_aggressive_tone resp.advice then
      ["Advice tone may be too aggressive. Consider softer language."]
    else []
  { passed := (vio1 ++ vio2).isEmpty, violations := vio1 ++ vio2, warnings := warns }

/-! ## Memory analytics (src/controller/memory.py)

A DecisionMemory row is modeled with the fields the analytics read:
timestamp (integer seconds), urgency, competitor name and strategy type.
The identifier, signal-snapshot, confidence, hash and cache-hit columns
are carried through the store untouched by the functions verified here. -/

structure DecisionMemory where
  timestamp : Int
  urgency : String
  competitor_name : String
  strategy_type : String
deriving DecidableEq, Repr

/-- The urgency-count accumulation loop of build_business_profile
(memory.py lines 190-197), restricted to the three keys the comparison
reads. -/
def urgency_counts : List DecisionMemory → Nat × Nat × Nat
  | [] => (0, 0, 0)
  | d :: rest =>
      let acc := urgency_counts rest
      ((if d.urgency = "low" then acc.1 + 1 else acc.1),
       (if d.urgency = "medium" then acc.2.1 + 1 else acc.2.1),
       (if d.urgency = "high" then acc.2.2 + 1 else acc.2.2))

/-- The avg_urgency computation of build_business_profile (memory.py lines
199-205): high if the high count strictly exceeds the medium count, else
medium if the medium count strictly exceeds the low count, else low. -/
def build_profile_avg_urgency (decisions : List DecisionMemory) : String :=
  let c := urgency_counts decisions
  if c.2.2 > c.2.1 then "high"
  else if c.2.1 > c.1 then "medium"
  else "low"

/-- Modelled from the spec: the dominant urgency bucket as the spec words
it, a majority vote among low/medium/high with ties broken toward the
lower bucket.  Stated only for comparison with build_profile_avg_urgency,
the computation the source actually performs. -/
def spec_majority_urgency (decisions : List DecisionMemory) : String :=
  let c := urgency_counts decisions
  if c.1 ≥ c.2.1 ∧ c.1 ≥ c.2.2 then "low"
  else if c.2.1 ≥ c.2.2 then "medium"
  else "high"

/-- The newest sampled timestamp (recent is ordered newest first). -/
def spiral_head_ts (recent : List DecisionMemory) : Int :=
  ((recent.head?).map (fun d => d.timestamp)).getD 0

/-- The oldest sampled timestamp. -/
def spiral_last_ts (recent : List DecisionMemory) : Int :=
  ((recent.getLast?).map (fun d => d.timestamp)).getD 0

/-- The integer day span of the sample: the days attribute of the
timedelta between the newest and the oldest timestamp, which is the floor
division of the difference by 86400 seconds. -/
def spiral_time_span (recent : List DecisionMemory) : Int :=
  Int.fdiv (spiral_head_ts recent - spiral_last_ts recent) 86400

/-- decisions_per_week = (len(recent) / time_span) * 7, as an exact
rational.  Only read when the time span is nonzero. -/
def spiral_dpw (recent : List DecisionMemory) : ℚ :=
  ((recent.length : ℚ) / (spiral_time_span recent : ℚ)) * 7

/-- Fraction of high-urgency decisions in the sample. -/
def spiral_high_frac (recent : List DecisionMemory) : ℚ :=
  ((recent.countP (fun d => d.urgency == "high")) : ℚ) / (recent.length : ℚ)

/-- The count of the most frequent competitor in the sample. -/
def spiral_max_count (recent : List DecisionMemory) : Nat :=
  ((recent.map (fun d => d.competitor_name)).map
    (fun nm => (recent.map (fun d => d.competitor_name)).count nm)).foldl max 0

/-- Share of the sample accounted for by the most frequent competitor. -/
def spiral_max_focus (recent : List DecisionMemory) : ℚ :=
  ((spiral_max_count recent) : ℚ) / (recent.length : ℚ)

/-- The report returned on spiral detection.  The round(x, 2) display
rounding of the two rates is omitted; the exact values are reported. -/
structure SpiralReport where
  status : String
  severity : String
  decisions_per_week : ℚ
  high_urgency_rate : ℚ
  dominant_competitor : String
  recommendation : String
deriving DecidableEq, Repr

/-- MemoryInsights.detect_reactive_spiral (memory.py lines 328-385),
applied to the sample of most recent records (the store query returns at
most 20, newest first): require at least 5 records, decline on a zero day
span, then flag a spiral iff decisions-per-week exceeds 1.5, the
high-urgency fraction exceeds 0.6 and the top competitor share exceeds
0.5; severity is high iff decisions-per-week exceeds 3. -/
def detect_reactive_spiral (recent : List DecisionMemory) : Option SpiralReport :=
  if recent.length < 5 then none
  else if spiral_time_span recent = 0 then none
  else if spiral_dpw recent > 3/2 ∧ spiral_high_frac recent > 3/5 ∧
          spiral_max_focus recent > 1/2 then
    some { status := "spiral_detected",
           severity := if spiral_dpw recent > 3 then "high" else "moderate",
           decisions_per_week := spiral_dpw recent,
           high_urgency_rate := spiral_high_frac recent,
           dominant_competitor :=
             (((recent.map (fun d => d.competitor_name)).find?
                (fun nm => (recent.map (fun d => d.competitor_name)).count nm
                              == spiral_max_count recent)).getD ""),
           recommendation := "Consider stepping back and reviewing overall strategy" }
  else none

/-! ## Orchestrator (src/controller/orchestrator.py)

handle_request is modeled as a pure function of the request data, the
per-identity rate-limit history, the clock, and a bundle of external
collaborators: the LLM analyst (extract_signals), the fingerprint function
(hash_context over the serialized context, an arbitrary keying function
here), the cache read (the Redis state at request time) and the LLM
advisor (explain_strategy).  Side effects on the outside world (the cache
write and the fire-and-forget memory write) are returned as an ordered
event list. -/

structure AdvisorInput where
  strategy_type : String
  focus : String
  urgency : String
  signals : List String
deriving DecidableEq, Repr

structure AdvisorOutput where
  advice : String
  reason : String
  confidence : String
deriving DecidableEq, Repr

/-- The per-competitor signal summary line assembled in handle_request. -/
def signal_line (c : Competitor) : String :=
  c.name ++ ": event=" ++ c.signals.event.val ++
  ", sentiment=" ++ c.signals.sentiment.val ++
  ", clarity=" ++ c.signals.clarity.val ++
  ", execution=" ++ c.signals.execution_quality.val ++
  ", messaging=" ++ c.signals.messaging_strength.val ++
  ", confusion=" ++ c.signals.market_confusion.val

/-- The advisor_input dictionary assembled in handle_request. -/
def make_advisor_input (strategy : StrategyDecision) (extracted : ExtractedContext) :
    AdvisorInput :=
  ⟨strategy.strategy_type.val, strategy.focus, strategy.urgency.val,
   extracted.competitors.map signal_line⟩

/-- build_response (controller/response_builder.py). -/
def build_response (strategy : StrategyDecision) (advisor : AdvisorOutput) : Response :=
  ⟨strategy.strategy_type.val, strategy.focus, strategy.urgency.val, strategy.avoid,
   advisor.advice, advisor.reason, advisor.confidence⟩

/-- The fixed safe fallback response substituted on an output-guardrail
violation (orchestrator.py lines 159-167). -/
def safe_fallback : Response :=
  { best_move := "wait_and_observe", focus := "monitoring", urgency := "low", avoid := [],
    advice := "Recommend careful monitoring before taking action.",
    reason := "Output validation required conservative approach.",
    confidence := "low" }

inductive PipelineError
  | guardrailBlocked (message : String)
  | validationError (message : String)
deriving DecidableEq, Repr

inductive PipelineEvent
  | extractionCall
  | cacheWrite (key : String) (resp : Response)
  | memoryWrite (business_id : String) (resp : Response) (cache_hit : Bool)
deriving DecidableEq, Repr

/-- The external collaborators consumed by handle_request. -/
structure Externals where
  extract : List Char → ExtractedContext
  hash : ExtractedContext → String
  cacheGet : String → Option Response
  explain : AdvisorInput → AdvisorOutput

/-- Phases 5 and 6 of handle_request (orchestrator.py lines 150-198):
output validation with fallback substitution, then the cache write and,
when memory is enabled and a business id is present, the memory write
(recorded with the final response and cache_hit = false). -/
def phase56 (context_hash : String) (response : Response) (business_id : Option String)
    (enable_memory : Bool) : Response × List PipelineEvent :=
  let og := validate_output response
  let response2 := if og.passed then response else safe_fallback
  (response2,
   [PipelineEvent.cacheWrite context_hash response2] ++
   (if enable_memory && id_truthy business_id then
      [PipelineEvent.memoryWrite (business_id.getD "") response2 false]
    else []))

/-- handle_request (orchestrator.py lines 34-200).  Returns the response
or the raised exception, the ordered list of outward effects, and the
updated rate-limit history of the identity.  A blocked request raises
before the extraction call, so its event list is empty.  The legacy
validator (controller/validator.py) raises ValueError on empty or
oversized input. -/
def handle_request (ext : Externals) (raw : List Char) (business_id : Option String)
    (enable_memory : Bool) (now : Int) (hist : List Int) :
    Except PipelineError Response × List PipelineEvent × List Int :=
  let gres := validate_input_all raw business_id now hist
  if gres.1.passed = false then
    (Except.error (.guardrailBlocked
        ("Request blocked by guardrails: " ++
         (((gres.1.violations.head?).map (fun v => v.message)).getD ""))),
     [], gres.2)
  else if raw = [] then
    (Except.error (.validationError "Input cannot be empty"), [], gres.2)
  else if 3000 < raw.length then
    (Except.error (.validationError "Input exceeds 3000 characters"), [], gres.2)
  else
    let extracted := ext.extract raw
    let context_hash := ext.hash extracted
    match ext.cacheGet context_hash with
    | some cached =>
        (Except.ok cached,
         [PipelineEvent.extractionCall] ++
         (if enable_memory && id_truthy business_id then
            [PipelineEvent.memoryWrite (business_id.getD "") cached true]
          else []),
         gres.2)
    | none =>
        let strategy := decide_strategy extracted
        let advisor := ext.explain (make_advisor_input strategy extracted)
        let response := build_response strategy advisor
        let out := phase56 context_hash response business_id enable_memory
        (Except.ok out.1, PipelineEvent.extractionCall :: out.2, gres.2)

/-! ## Concrete instances used in the theorems below -/

/-- A bundle of external collaborators for concrete pipeline runs: the
analyst returns a context with no competitors, the cache is empty and the
advisor returns a fixed explanation. -/
def cxExt : Externals :=
  { extract := fun _ => ⟨[], [], "monitoring"⟩,
    hash := fun _ => "k",
    cacheGet := fun _ => none,
    explain := fun _ => ⟨"Watch the market.", "No signal.", "low"⟩ }

/-- A raw input that contains the substring steal customer data. -/
def cxRaw : List Char := "They steal customer data daily.".toList

/-- A raw input matched by the steal pattern of SENSITIVE_PATTERNS. -/
def stealRaw : List Char := "we should steal data from them".toList

/-- The response produced by the pipeline on cxRaw with cxExt. -/
def cxResponse : Response :=
  { best_move := "wait_and_observe", focus := "monitoring", urgency := "low",
    avoid := ["hasty_reactions"], advice := "Watch the market.", reason := "No signal.",
    confidence := "low" }

/-- Nine decision records: 3 high, 2 medium, 4 low urgency. -/
def c6_sample : List DecisionMemory :=
  [⟨0, "high", "a", "p"⟩, ⟨0, "high", "a", "p"⟩, ⟨0, "high", "a", "p"⟩,
   ⟨0, "medium", "a", "p"⟩, ⟨0, "medium", "a", "p"⟩,
   ⟨0, "low", "a", "p"⟩, ⟨0, "low", "a", "p"⟩, ⟨0, "low", "a", "p"⟩, ⟨0, "low", "a", "p"⟩]

/-- A single low-urgency decision record. -/
def c6_single : List DecisionMemory := [⟨0, "low", "a", "p"⟩]

/-- Six records over a two-day span, five of them high urgency, all on one
competitor: every spiral threshold is exceeded. -/
def c5_hot : List DecisionMemory :=
  [⟨200000, "high", "Acme", "p"⟩, ⟨150000, "high", "Acme", "p"⟩,
   ⟨100000, "high", "Acme", "p"⟩, ⟨50000, "high", "Acme", "p"⟩,
   ⟨20000, "high", "Acme", "p"⟩, ⟨0, "low", "Acme", "p"⟩]

/-- Five records spread over ten days with 40 percent high urgency and two
distinct competitors: the high-urgency threshold fails. -/
def c5_cold : List DecisionMemory :=
  [⟨864000, "high", "A", "p"⟩, ⟨600000, "high", "A", "p"⟩, ⟨400000, "low", "A", "p"⟩,
   ⟨200000, "low", "B", "p"⟩, ⟨0, "low", "B", "p"⟩]

/-- Five records with five distinct timestamps inside one day, all high
urgency on a single competitor: every threshold would be exceeded but the
integer day span is zero. -/
def c10_sample : List DecisionMemory :=
  [⟨80000, "high", "Acme", "p"⟩, ⟨60000, "high", "Acme", "p"⟩, ⟨40000, "high", "Acme", "p"⟩,
   ⟨20000, "high", "Acme", "p"⟩, ⟨0, "high", "Acme", "p"⟩]

/-- A response whose focus contains a forbidden tactic. -/
def c7_bad_response : Response :=
  { best_move := "positioning_response", focus := "start a price_war", urgency := "medium",
    avoid := [], advice := "a", reason := "r", confidence := "low" }

/-! ## Helper lemmas -/

theorem pyStrip_length_le (l : List Char) : (pyStrip l).length ≤ l.length := by
  unfold pyStrip
  calc ((l.dropWhile isPySpace).reverse.dropWhile isPySpace).reverse.length
      = ((l.dropWhile isPySpace).reverse.dropWhile isPySpace).length := by
        exact List.length_reverse _
    _ ≤ (l.dropWhile isPySpace).reverse.length := (List.dropWhile_sublist _).length_le
    _ = (l.dropWhile isPySpace).length := List.length_reverse _
    _ ≤ l.length := (List.dropWhile_sublist _).length_le

theorem firstRuleDecision_none (rules : List (ExtractedContext → Option StrategyDecision))
    (ctx : ExtractedContext) (h : ∀ r ∈ rules, r ctx = none) :
    firstRuleDecision rules ctx = none := by
  induction rules with
  | nil => rfl
  | cons r rs ih =>
      have h1 : r ctx = none := h r (List.mem_cons_self r rs)
      have h2 : ∀ x ∈ rs, x ctx = none := fun x hx => h x (List.mem_cons_of_mem r hx)
      simp [firstRuleDecision, h1, ih h2]

theorem rules_none_of_no_competitors (ctx : ExtractedContext) (h : ctx.competitors = []) :
    ∀ r ∈ RULES, r ctx = none := by
  intro r hr
  simp only [RULES, List.mem_cons, List.not_mem_nil, or_false] at hr
  rcases hr with rfl | rfl | rfl | rfl | rfl | rfl <;>
    simp [evaluate_market_leader_rule, evaluate_aggressive_positioning_rule,
          evaluate_pricing_rule, evaluate_positioning_rule,
          evaluate_price_increase_rule, evaluate_defensive_wait_rule, h]

theorem urgency_counts_eq (ds : List DecisionMemory) :
    urgency_counts ds =
      (ds.countP (fun d => d.urgency == "low"),
       ds.countP (fun d => d.urgency == "medium"),
       ds.countP (fun d => d.urgency == "high")) := by
  induction ds with
  | nil => rfl
  | cons d rest ih =>
      simp only [urgency_counts, ih, List.countP_cons, Prod.mk.injEq]
      refine ⟨?_, ?_, ?_⟩
      · by_cases h : d.urgency = "low" <;> simp [h]
      · by_cases h : d.urgency = "medium" <;> simp [h]
      · by_cases h : d.urgency = "high" <;> simp [h]

theorem check_rate_limit_pass (now : Int) (h : List Int)
    (hw : ∀ x ∈ h, now - x < 60) (hlen : h.length ≤ 10) :
    check_rate_limit now h = (⟨true, [], []⟩, h ++ [now]) := by
  have h24 : prune24 now h = h :=
    List.filter_eq_self.mpr (fun x hx => decide_eq_true (by have := hw x hx; omega))
  have hm : h.filter (fun ts => decide (now - 60 < ts)) = h :=
    List.filter_eq_self.mpr (fun x hx => decide_eq_true (by have := hw x hx; omega))
  have hh : (h.filter (fun ts => decide (now - 3600 < ts))).length ≤ h.length :=
    List.length_filter_le _ _
  have hd : (h.filter (fun ts => decide (now - 86400 < ts))).length ≤ h.length :=
    List.length_filter_le _ _
  unfold check_rate_limit
  rw [h24, hm]
  rw [if_neg (by omega), if_neg (by omega), if_neg (by omega)]

theorem check_rate_limit_fail (now : Int) (h : List Int)
    (hw : ∀ x ∈ h, now - x < 60) (hlen : 10 < h.length) :
    check_rate_limit now h =
      (⟨false, [⟨"rate_limit_exceeded", "high", "Exceeded 10 requests per minute"⟩], []⟩,
       h) := by
  have h24 : prune24 now h = h :=
    List.filter_eq_self.mpr (fun x hx => decide_eq_true (by have := hw x hx; omega))
  have hm : h.filter (fun ts => decide (now - 60 < ts)) = h :=
    List.filter_eq_self.mpr (fun x hx => decide_eq_true (by have := hw x hx; omega))
  unfold check_rate_limit
  rw [h24, hm, if_pos hlen]

theorem run_rate_calls_all_pass (ts : List Int) :
    ∀ hs : List Int,
      (∀ t ∈ ts, ∀ x ∈ hs, t - x < 60) →
      (∀ t ∈ ts, ∀ x ∈ ts, t - x < 60) →
      hs.length + ts.length ≤ 11 →
      run_rate_calls ts hs =
        (ts.map (fun _ => (⟨true, [], []⟩ : GuardrailResult)), hs ++ ts) := by
  induction ts with
  | nil => intro hs _ _ _; simp [run_rate_calls]
  | cons t rest ih =>
      intro hs hw1 hw2 hlen
      have hpass : check_rate_limit t hs = (⟨true, [], []⟩, hs ++ [t]) :=
        check_rate_limit_pass t hs
          (fun x hx => hw1 t (List.mem_cons_self t rest) x hx)
          (by simp only [List.length_cons] at hlen; omega)
      have hw1b : ∀ u ∈ rest, ∀ x ∈ hs ++ [t], u - x < 60 := by
        intro u hu x hx
        rcases List.mem_append.mp hx with hx | hx
        · exact hw1 u (List.mem_cons_of_mem t hu) x hx
        · rcases List.mem_singleton.mp hx with rfl
          exact hw2 u (List.mem_cons_of_mem _ hu) _ (List.mem_cons_self _ _)
      have hw2b : ∀ u ∈ rest, ∀ x ∈ rest, u - x < 60 :=
        fun u hu x hx =>
          hw2 u (List.mem_cons_of_mem t hu) x (List.mem_cons_of_mem t hx)
      have hlenb : (hs ++ [t]).length + rest.length ≤ 11 := by
        simp only [List.length_append, List.length_cons, List.length_nil] at hlen ⊢
        omega
      have hrec := ih (hs ++ [t]) hw1b hw2b hlenb
      simp [run_rate_calls, hpass, hrec]

theorem run_rate_calls_append (a b h : List Int) :
    run_rate_calls (a ++ b) h =
      ((run_rate_calls a h).1 ++ (run_rate_calls b (run_rate_calls a h).2).1,
       (run_rate_calls b (run_rate_calls a h).2).2) := by
  induction a generalizing h with
  | nil => simp [run_rate_calls]
  | cons t ts ih => simp [run_rate_calls, ih]

theorem validate_harmful (raw : List Char)
    (h1 : 10 ≤ (pyStrip raw).length) (h2 : raw.length ≤ 3000)
    (h3 : sensitiveHit (lowerCl raw) = true) :
    InputGuardrails.validate raw =
      ⟨false, [⟨"harmful_intent_detected", "critical",
                "Input contains potentially harmful or unethical intent"⟩], []⟩ := by
  have hne : ¬(raw = [] ∨ (pyStrip raw).length < 10) := by
    rintro (rfl | hlt)
    · simp [pyStrip] at h1
    · omega
  unfold InputGuardrails.validate
  rw [if_neg hne, if_neg (by omega), if_pos h3]

/-! ## Claims -/

/-- Claim C3: for every valid ExtractedContext the rule engine returns a
decision (decide_strategy is a total function of the embedded context);
whenever the competitor list is empty, or no rule in the priority list
matches, it returns the fallback wait decision with monitoring focus and
low urgency. -/
theorem c3_rule_engine_fallback (ctx : ExtractedContext)
    (h : ctx.competitors = [] ∨ ∀ r ∈ RULES, r ctx = none) :
    decide_strategy ctx = ⟨.WAIT, "monitoring", .LOW, ["hasty_reactions"]⟩ := by
  have hnone : ∀ r ∈ RULES, r ctx = none := by
    rcases h with h | h
    · exact rules_none_of_no_competitors ctx h
    · exact h
  simp [decide_strategy, firstRuleDecision_none RULES ctx hnone, evaluate_wait_rule]

/-- Witness for C3: the fallback decision on a context with no competitors
and on a context whose signals are all unknown or none. -/
theorem c3_witness :
    decide_strategy ⟨[], [], "monitoring"⟩ =
      ⟨.WAIT, "monitoring", .LOW, ["hasty_reactions"]⟩ ∧
    decide_strategy ⟨[⟨"Acme", ⟨.NONE, .UNKNOWN, .UNKNOWN, .UNKNOWN, .UNKNOWN, .UNKNOWN,
        .UNKNOWN⟩⟩], [], "monitoring"⟩ =
      ⟨.WAIT, "monitoring", .LOW, ["hasty_reactions"]⟩ :=
  ⟨c3_rule_engine_fallback _ (Or.inl rfl),
   c3_rule_engine_fallback _ (Or.inr (by
      intro r hr
      simp only [RULES, List.mem_cons, List.not_mem_nil, or_false] at hr
      rcases hr with rfl | rfl | rfl | rfl | rfl | rfl <;> rfl))⟩

/-- Claim C4: a first competitor with a new product launch, mixed-positive
sentiment and confusing clarity (all remaining signals unknown) yields the
positioning decision with clarity_and_simplicity focus, medium urgency and
price_war in the avoid list, whatever the rest of the context is. -/
theorem c4_positioning_first_match (name : String) (rest : List Competitor)
    (ms : List String) (ui : String) :
    decide_strategy ⟨⟨name, ⟨.NEW_PRODUCT_LAUNCH, .MIXED_POSITIVE, .CONFUSING,
        .UNKNOWN, .UNKNOWN, .UNKNOWN, .UNKNOWN⟩⟩ :: rest, ms, ui⟩ =
      ⟨.POSITIONING, "clarity_and_simplicity", .MEDIUM, ["price_war", "feature_matching"]⟩ ∧
    "price_war" ∈ (decide_strategy ⟨⟨name, ⟨.NEW_PRODUCT_LAUNCH, .MIXED_POSITIVE, .CONFUSING,
        .UNKNOWN, .UNKNOWN, .UNKNOWN, .UNKNOWN⟩⟩ :: rest, ms, ui⟩).avoid := by
  refine ⟨rfl, ?_⟩
  rw [show decide_strategy ⟨⟨name, ⟨.NEW_PRODUCT_LAUNCH, .MIXED_POSITIVE, .CONFUSING,
        .UNKNOWN, .UNKNOWN, .UNKNOWN, .UNKNOWN⟩⟩ :: rest, ms, ui⟩ =
      ⟨.POSITIONING, "clarity_and_simplicity", .MEDIUM, ["price_war", "feature_matching"]⟩
    from rfl]
  simp

/-- Claim C9: the stored history after a check equals the pruned prior
history with the current timestamp appended exactly when the check passed;
a rate-limited call records nothing. -/
theorem c9_append_iff_pass (now : Int) (history : List Int) :
    (check_rate_limit now history).2 =
      (if (check_rate_limit now history).1.passed then
        history.filter (fun ts => decide (now - ts < 86400)) ++ [now]
      else
        history.filter (fun ts => decide (now - ts < 86400))) := by
  unfold check_rate_limit prune24
  split_ifs <;> simp_all

/-- Claim C8 (amended): an input shorter than 10 or longer than 3000
characters fails the input content gate with a single violation of
severity medium (the source uses medium, not critical, for both length
violations). -/
theorem c8_amended_length_severity (raw : List Char)
    (h : raw.length < 10 ∨ 3000 < raw.length) :
    (InputGuardrails.validate raw).passed = false ∧
    (InputGuardrails.validate raw).violations.length = 1 ∧
    ∀ v ∈ (InputGuardrails.validate raw).violations, v.severity = "medium" := by
  rcases h with h | h
  · have hs : (pyStrip raw).length < 10 := lt_of_le_of_lt (pyStrip_length_le raw) h
    unfold InputGuardrails.validate
    rw [if_pos (Or.inr hs)]
    refine ⟨rfl, rfl, ?_⟩
    intro v hv
    rcases List.mem_singleton.mp hv with rfl
    rfl
  · by_cases hshort : raw = [] ∨ (pyStrip raw).length < 10
    · unfold InputGuardrails.validate
      rw [if_pos hshort]
      refine ⟨rfl, rfl, ?_⟩
      intro v hv
      rcases List.mem_singleton.mp hv with rfl
      rfl
    · unfold InputGuardrails.validate
      rw [if_neg hshort, if_pos h]
      refine ⟨rfl, rfl, ?_⟩
      intro v hv
      rcases List.mem_singleton.mp hv with rfl
      rfl

/-- Witness for the amended C8 at a two-character input. -/
theorem c8_witness : (InputGuardrails.validate "no".toList).passed = false :=
  (c8_amended_length_severity "no".toList (Or.inl (by decide))).1

/-- Counterexample for C8 as stated: a five-character input fails the gate
with severity medium, not critical. -/
theorem c8_counterexample :
    InputGuardrails.validate "short".toList =
      ⟨false, [⟨"input_too_short", "medium", "Input must be at least 10 characters"⟩], []⟩ ∧
    ("medium" : String) ≠ "critical" := by
  exact ⟨rfl, by decide⟩

/-- Claim C2 (amended): for one business identity starting from an empty
history, eleven check_rate_limit calls within the same 60-second window
all pass and each appends its timestamp; the twelfth call in that window
fails with a high-severity rate-limit violation and appends nothing.  (The
trailing-minute count excludes the call being checked, so the block lands
one call later than the claim states.) -/
theorem c2_amended_twelfth_call_blocked (ts : List Int) (t : Int)
    (hlen : ts.length = 11)
    (hw : ∀ x ∈ ts ++ [t], ∀ y ∈ ts ++ [t], x - y < 60) :
    run_rate_calls (ts ++ [t]) [] =
      ((ts.map fun _ => (⟨true, [], []⟩ : GuardrailResult)) ++
        [⟨false, [⟨"rate_limit_exceeded", "high", "Exceeded 10 requests per minute"⟩], []⟩],
       ts) := by
  have hmemA : ∀ x ∈ ts, x ∈ ts ++ [t] := fun x hx => List.mem_append_left _ hx
  have hmemT : t ∈ ts ++ [t] := List.mem_append_right _ (List.mem_singleton.mpr rfl)
  have hA : run_rate_calls ts [] =
      (ts.map fun _ => (⟨true, [], []⟩ : GuardrailResult), ts) := by
    have := run_rate_calls_all_pass ts []
      (fun u _ x hx => absurd hx (List.not_mem_nil x))
      (fun u hu x hx => hw u (hmemA u hu) x (hmemA x hx))
      (by simp [hlen])
    simpa using this
  have hstep : check_rate_limit t ts =
      (⟨false, [⟨"rate_limit_exceeded", "high", "Exceeded 10 requests per minute"⟩], []⟩,
       ts) :=
    check_rate_limit_fail t ts (fun x hx => hw t hmemT x (hmemA x hx)) (by omega)
  rw [run_rate_calls_append, hA]
  simp [run_rate_calls, hstep]

/-- Witness for the amended C2: twelve calls at one timestamp from an
empty history; the first eleven pass, the twelfth is blocked. -/
theorem c2_witness :
    run_rate_calls (List.replicate 11 (0 : Int) ++ [0]) [] =
      (((List.replicate 11 (0 : Int)).map fun _ => (⟨true, [], []⟩ : GuardrailResult)) ++
        [⟨false, [⟨"rate_limit_exceeded", "high", "Exceeded 10 requests per minute"⟩], []⟩],
       List.replicate 11 (0 : Int)) :=
  c2_amended_twelfth_call_blocked _ _ (by decide) (by decide)

/-- Counterexample for C2 as stated: from an empty history the eleventh
call within the window still passes. -/
theorem c2_counterexample_eleventh_call_passes :
    ((run_rate_calls (List.replicate 11 (0 : Int)) []).1.getLast?).map
        (fun r => r.passed) = some true := by
  decide

/-- Claim C5: on a sample of at least five records the spiral detector
reports iff the day span is nonzero and decisions-per-week, high-urgency
fraction and top-competitor share all exceed their thresholds (1.5, 0.6,
0.5); a reported severity is high exactly when decisions-per-week exceeds
3. -/
theorem c5_spiral_iff_thresholds (recent : List DecisionMemory)
    (h5 : 5 ≤ recent.length) :
    ((detect_reactive_spiral recent ≠ none) ↔
      (spiral_time_span recent ≠ 0 ∧ spiral_dpw recent > 3/2 ∧
       spiral_high_frac recent > 3/5 ∧ spiral_max_focus recent > 1/2)) ∧
    (∀ rep, detect_reactive_spiral recent = some rep →
       rep.severity = (if spiral_dpw recent > 3 then "high" else "moderate")) := by
  have hnot : ¬ recent.length < 5 := by omega
  unfold detect_reactive_spiral
  rw [if_neg hnot]
  by_cases h0 : spiral_time_span recent = 0
  · rw [if_pos h0]
    refine ⟨⟨fun hcon => absurd rfl hcon, fun hcon => absurd h0 hcon.1⟩, ?_⟩
    intro rep hrep
    exact absurd hrep (by simp)
  · rw [if_neg h0]
    by_cases hc : spiral_dpw recent > 3/2 ∧ spiral_high_frac recent > 3/5 ∧
        spiral_max_focus recent > 1/2
    · rw [if_pos hc]
      refine ⟨⟨fun _ => ⟨h0, hc⟩, fun _ => by simp⟩, ?_⟩
      intro rep hrep
      rcases Option.some.inj hrep with rfl
      rfl
    · rw [if_neg hc]
      refine ⟨⟨fun hcon => absurd rfl hcon, fun hcon => absurd hcon.2 hc⟩, ?_⟩
      intro rep hrep
      exact absurd hrep (by simp)

/-- Witness for C5: a sample exceeding every threshold is reported, and
the five-records-over-ten-days sample with 40 percent high urgency is
not. -/
theorem c5_witness :
    detect_reactive_spiral c5_hot ≠ none ∧ detect_reactive_spiral c5_cold = none := by
  constructor
  · apply (c5_spiral_iff_thresholds c5_hot (by decide)).1.mpr
    have e1 : spiral_time_span c5_hot = 2 := by decide
    have e2 : c5_hot.length = 6 := by decide
    have e3 : c5_hot.countP (fun d => d.urgency == "high") = 5 := by decide
    have e4 : spiral_max_count c5_hot = 6 := by decide
    refine ⟨by rw [e1]; decide, ?_, ?_, ?_⟩
    · simp only [spiral_dpw]
      rw [e1, e2]
      norm_num
    · simp only [spiral_high_frac]
      rw [e3, e2]
      norm_num
    · simp only [spiral_max_focus]
      rw [e4, e2]
      norm_num
  · apply not_ne_iff.mp
    apply ((c5_spiral_iff_thresholds c5_cold (by decide)).1.not).mpr
    intro hcon
    have e2 : c5_cold.length = 5 := by decide
    have e3 : c5_cold.countP (fun d => d.urgency == "high") = 2 := by decide
    have hfrac := hcon.2.2.1
    simp only [spiral_high_frac] at hfrac
    rw [e3, e2] at hfrac
    norm_num at hfrac

/-- Claim C10: whenever the newest and oldest sampled timestamps are less
than one full day apart the integer day span is zero and the detector
reports nothing, regardless of how far the thresholds are exceeded. -/
theorem c10_subday_span_no_spiral (recent : List DecisionMemory)
    (h5 : 5 ≤ recent.length)
    (hnn : 0 ≤ spiral_head_ts recent - spiral_last_ts recent)
    (hlt : spiral_head_ts recent - spiral_last_ts recent < 86400) :
    detect_reactive_spiral recent = none := by
  have hz : spiral_time_span recent = 0 := by
    unfold spiral_time_span
    rw [Int.fdiv_eq_ediv _ (by norm_num)]
    exact Int.ediv_eq_zero_of_lt hnn hlt
  unfold detect_reactive_spiral
  rw [if_neg (by omega), if_pos hz]

/-- Witness for C10: five records with five distinct timestamps inside one
day, all high urgency on one competitor, yield no report. -/
theorem c10_witness : detect_reactive_spiral c10_sample = none :=
  c10_subday_span_no_spiral c10_sample (by decide) (by decide) (by decide)

/-- Claim C6 (amended): the dominant urgency bucket of the business
profile is computed by a pairwise cascade, not a majority vote: high if
the high count strictly exceeds the medium count, otherwise medium if the
medium count strictly exceeds the low count, otherwise low. -/
theorem c6_amended_urgency_cascade (ds : List DecisionMemory) (_hne : ds ≠ []) :
    build_profile_avg_urgency ds =
      (if ds.countP (fun d => d.urgency == "high") >
          ds.countP (fun d => d.urgency == "medium") then "high"
       else if ds.countP (fun d => d.urgency == "medium") >
               ds.countP (fun d => d.urgency == "low") then "medium"
       else "low") := by
  simp [build_profile_avg_urgency, urgency_counts_eq]

/-- Witness for the amended C6 at a single low-urgency record. -/
theorem c6_witness : build_profile_avg_urgency c6_single = "low" :=
  (c6_amended_urgency_cascade c6_single (by decide)).trans (by decide)

/-- Counterexample for C6 as stated: with 3 high, 2 medium and 4 low
urgency decisions the profile reports high (the cascade compares high with
medium first), while a majority vote with ties toward the lower bucket
would report low. -/
theorem c6_counterexample :
    build_profile_avg_urgency c6_sample = "high" ∧
    spec_majority_urgency c6_sample = "low" ∧ ("high" : String) ≠ "low" :=
  ⟨rfl, rfl, by decide⟩

/-- Claim C1 (amended): an input of admissible length whose lower-cased
text matches the steal pattern of SENSITIVE_PATTERNS (steal followed by
whitespace and then data, information or secrets) is blocked by
handle_request with a GuardrailBlocked error, no extraction call occurs,
and the input-side aggregation carries the critical harmful-intent
violation.  The scenario string steal customer data does not match this
pattern and is not blocked (see the counterexample). -/
theorem c1_amended_steal_pattern_blocks (ext : Externals) (raw : List Char)
    (business_id : Option String) (enable_memory : Bool) (now : Int) (hist : List Int)
    (h1 : 10 ≤ (pyStrip raw).length) (h2 : raw.length ≤ 3000)
    (h3 : stealPatternHit (lowerCl raw) = true) :
    (∃ msg, (handle_request ext raw business_id enable_memory now hist).1 =
        Except.error (PipelineError.guardrailBlocked msg)) ∧
    PipelineEvent.extractionCall ∉
      (handle_request ext raw business_id enable_memory now hist).2.1 ∧
    (⟨"harmful_intent_detected", "critical",
      "Input contains potentially harmful or unethical intent"⟩ : GuardrailViolation) ∈
      (validate_input_all raw business_id now hist).1.violations := by
  have hsens : sensitiveHit (lowerCl raw) = true := by
    unfold sensitiveHit
    rw [h3]
    simp
  have hval := validate_harmful raw h1 h2 hsens
  have hagg : (validate_input_all raw business_id now hist).1.passed = false ∧
      (⟨"harmful_intent_detected", "critical",
        "Input contains potentially harmful or unethical intent"⟩ : GuardrailViolation) ∈
        (validate_input_all raw business_id now hist).1.violations := by
    unfold validate_input_all aggregate
    by_cases hid : id_truthy business_id = true <;>
      simp [hid, hval, List.filter_cons]
  have hrun : handle_request ext raw business_id enable_memory now hist =
      (Except.error (PipelineError.guardrailBlocked
          ("Request blocked by guardrails: " ++
           ((((validate_input_all raw business_id now hist).1.violations.head?).map
              (fun v => v.message)).getD ""))),
       [], (validate_input_all raw business_id now hist).2) := by
    unfold handle_request
    rw [if_pos hagg.1]
  refine ⟨?_, ?_, hagg.2⟩
  · exact ⟨_, by rw [hrun]⟩
  · rw [hrun]
    simp

/-- Witness for the amended C1: a concrete input matching the steal
pattern is blocked. -/
theorem c1_witness :
    ∃ msg, (handle_request cxExt stealRaw none true 0 []).1 =
      Except.error (PipelineError.guardrailBlocked msg) :=
  (c1_amended_steal_pattern_blocks cxExt stealRaw none true 0 []
    (by decide) (by decide) (by decide)).1

/-- Counterexample for C1 as stated: an input containing the substring
steal customer data passes every input gate; handle_request returns a
decision and the extraction call occurs. -/
theorem c1_counterexample :
    (handle_request cxExt cxRaw none true 0 []).1 = Except.ok cxResponse ∧
    PipelineEvent.extractionCall ∈ (handle_request cxExt cxRaw none true 0 []).2.1 := by
  constructor
  · rfl
  · decide

/-- Claim C7: when the output guardrail reports any violation on the
assembled response, the output phase of handle_request (orchestrator.py
lines 150-198) raises nothing: it substitutes the fixed safe fallback
response and still performs the cache write and, with memory enabled and a
business id present, the memory write for the request. -/
theorem c7_output_violation_fallback (context_hash : String) (response : Response)
    (b : String) (hb : b ≠ "")
    (hv : (validate_output response).passed = false) :
    phase56 context_hash response (some b) true =
      (safe_fallback,
       [PipelineEvent.cacheWrite context_hash safe_fallback,
        PipelineEvent.memoryWrite b safe_fallback false]) := by
  have hid : id_truthy (some b) = true := by simp [id_truthy, hb]
  unfold phase56
  simp [hv, hid]

/-- Witness for C7: a response whose focus contains the forbidden pattern
price_war is replaced by the fallback and both writes happen. -/
theorem c7_witness :
    phase56 "k1" c7_bad_response (some "biz-1") true =
      (safe_fallback,
       [PipelineEvent.cacheWrite "k1" safe_fallback,
        PipelineEvent.memoryWrite "biz-1" safe_fallback false]) :=
  c7_output_violation_fallback "k1" c7_bad_response "biz-1" (by decide) (by decide)
